import Mathlib

/-!
Shallow embedding of `SceneManager` (src/systems/SceneManager.ts) from the
siblo-web-game-prototype repository.

The manager owns:
  * `scenes`: a `Map<string, SceneClass>` registration table (`Map.set` on
    registration, `Map.get` on load);
  * `currentScene`: the active-scene slot (`BaseScene | null`);
  * `isTransitioning`: the re-entrancy guard flag;
and it mutates the PIXI stage child list and per-container `alpha`.

Modelling decisions (all traced to the source):
  * A scene class is abstracted by its identity plus whether its `load()` /
    `unload()` promise rejects (`BaseScene.load`/`unload` are the only
    awaited collaborator calls inside `loadScene`).
  * A scene instance is its class plus a fresh instance id (`new SceneClass`
    constructs a fresh object; `BaseScene`'s constructor creates a fresh
    `PIXI.Container`, whose default `alpha` is 1).
  * The `Map` is an association list; `Map.set` prepends, `Map.get` takes the
    first hit, which is observably the `Map` overwrite semantics.
  * `loadScene` is an `async` method; between its `await`s control returns to
    the event loop.  The model returns, besides the final state and outcome,
    the list of states observable at each suspension point (tagged with which
    await it is) and the chronological list of `container.alpha` assignments.
  * `fadeOut`/`fadeIn` sample `Date.now() - startTime` once per animation
    frame; the model takes the list of those elapsed times as a parameter
    (`sched`).  Each frame writes `alpha` and re-schedules while
    `progress < 1`, i.e. while `elapsed < duration` (the fades are only ever
    invoked with `duration > 0`).  The promise resolves only if some sampled
    elapsed time reaches the duration (`schedValid`); on an invalid schedule
    the real code never resolves, so theorems about completed calls assume
    validity.
-/

namespace SceneMgr

/-- A scene class (constructor registered in the table), abstracted by its
identity and by whether its `load()` / `unload()` promise rejects. -/
structure SceneClass where
  className : String
  loadFails : Bool
  unloadFails : Bool
deriving DecidableEq, Repr

/-- A scene instance: `new SceneClass(app, this)` yields a fresh object with a
fresh `PIXI.Container`; `instId` models that freshness. -/
structure SceneInst where
  cls : SceneClass
  instId : Nat
deriving DecidableEq, Repr

/-- The manager's mutable state together with the PIXI stage it touches:
the registration map, the active-scene slot, the guard flag, the stage child
list, and the per-container `alpha` values (association list, most recent
write first; a container with no recorded write has PIXI's default alpha 1).
`nextId` supplies fresh instance ids. -/
structure MState where
  scenes : List (String × SceneClass)
  currentScene : Option SceneInst
  isTransitioning : Bool
  stageChildren : List SceneInst
  alphas : List (SceneInst × ℚ)
  nextId : Nat
deriving DecidableEq, Repr

/-- `Map.get name` — first (most recently set) binding wins. -/
def mapGet (m : List (String × SceneClass)) (k : String) : Option SceneClass :=
  (m.find? fun p => decide (p.1 = k)).map Prod.snd

/-- `registerScene(name, SceneClass)`: `this.scenes.set(name, SceneClass)`. -/
def registerScene (st : MState) (name : String) (c : SceneClass) : MState :=
  { st with scenes := (name, c) :: st.scenes }

/-- `getCurrentScene()`: `return this.currentScene`. -/
def getCurrentScene (st : MState) : Option SceneInst := st.currentScene

/-- Current `container.alpha` of an instance (PIXI default 1 if never assigned). -/
def alphaOf (st : MState) (s : SceneInst) : ℚ :=
  ((st.alphas.find? fun p => decide (p.1 = s)).map Prod.snd).getD 1

/-- `container.alpha = a`. -/
def setAlpha (st : MState) (s : SceneInst) (a : ℚ) : MState :=
  { st with alphas := (s, a) :: st.alphas }

/-- The fade promise resolves iff some sampled elapsed time reaches the
duration (`progress = 1`). -/
def schedValid (dur : ℚ) (sched : List ℚ) : Prop := ∃ e ∈ sched, dur ≤ e

instance (dur : ℚ) (sched : List ℚ) : Decidable (schedValid dur sched) := by
  unfold schedValid; infer_instance

/-- `Math.min`, written as an explicit conditional so that it evaluates by
kernel reduction on `Rat`. -/
def jsMin (a b : ℚ) : ℚ := if a ≤ b then a else b

/-- `fadeOut(container, duration)`: `startAlpha` is read once at entry; each
frame assigns `alpha = startAlpha * (1 - progress)` with
`progress = min(elapsed / duration, 1)` and re-schedules while `progress < 1`.
Returns the state after the executed frames, the alpha writes, and the state
snapshot at each frame boundary (a suspension point of the enclosing await). -/
def fadeOutRun (s : SceneInst) (a0 dur : ℚ) :
    MState → List ℚ → MState × List (SceneInst × ℚ) × List MState
  | st, [] => (st, [], [])
  | st, e :: rest =>
    let v := a0 * (1 - jsMin (e / dur) 1)
    let st2 := setAlpha st s v
    if e < dur then
      let r := fadeOutRun s a0 dur st2 rest
      (r.1, (s, v) :: r.2.1, st2 :: r.2.2)
    else
      (st2, [(s, v)], [st2])

/-- `fadeIn(container, duration)`: each frame assigns `alpha = progress`. -/
def fadeInRun (s : SceneInst) (dur : ℚ) :
    MState → List ℚ → MState × List (SceneInst × ℚ) × List MState
  | st, [] => (st, [], [])
  | st, e :: rest =>
    let v := jsMin (e / dur) 1
    let st2 := setAlpha st s v
    if e < dur then
      let r := fadeInRun s dur st2 rest
      (r.1, (s, v) :: r.2.1, st2 :: r.2.2)
    else
      (st2, [(s, v)], [st2])

/-- Which `await` of `loadScene` a suspension snapshot belongs to. -/
inductive SuspKind where
  | fadeOutFrame
  | unloadAwait
  | loadAwait
  | fadeInFrame
deriving DecidableEq, Repr

/-- How the `loadScene` promise settles.  `guardSkip` is the early
`console.warn(...); return;` path: the promise RESOLVES (no error reaches the
caller).  The two `err*` constructors are thrown/re-thrown errors. -/
inductive LoadOutcome where
  | guardSkip
  | errNotRegistered (name : String)
  | errUnload (s : SceneInst)
  | errLoad (s : SceneInst)
  | ok
deriving DecidableEq, Repr

/-- Does the caller of `loadScene` observe a rejected promise? -/
def isError : LoadOutcome → Bool
  | .errNotRegistered _ => true
  | .errUnload _ => true
  | .errLoad _ => true
  | _ => false

/-- Result of one `loadScene` call: final state, how the promise settled, the
state at each suspension point (in order, tagged), and the chronological
`container.alpha` assignments made by the call. -/
structure LoadResult where
  final : MState
  outcome : LoadOutcome
  susp : List (SuspKind × MState)
  writes : List (SceneInst × ℚ)
deriving DecidableEq, Repr

/-- The tail of `loadScene` from `const newScene = new SceneClass(...)` on:
construct, `await newScene.load()`, `addChild`, set `currentScene`, optional
fade-in, and the `finally { this.isTransitioning = false }`. -/
def installNew (st : MState) (cls : SceneClass) (dur : ℚ) (inSched : List ℚ)
    (t : List (SuspKind × MState)) (w : List (SceneInst × ℚ)) : LoadResult :=
  let inst : SceneInst := ⟨cls, st.nextId⟩
  let st4 : MState := { st with nextId := st.nextId + 1 }
  let t2 := t ++ [(SuspKind.loadAwait, st4)]
  if cls.loadFails then
    ⟨{ st4 with isTransitioning := false }, .errLoad inst, t2, w⟩
  else
    let st5 : MState := { st4 with
      stageChildren := st4.stageChildren ++ [inst],
      currentScene := some inst }
    if 0 < dur then
      let st6 := setAlpha st5 inst 0
      let r := fadeInRun inst dur st6 inSched
      ⟨{ r.1 with isTransitioning := false }, .ok,
        t2 ++ r.2.2.map fun s => (SuspKind.fadeInFrame, s),
        (w ++ [(inst, 0)]) ++ r.2.1⟩
    else
      ⟨{ st5 with isTransitioning := false }, .ok, t2, w⟩

/-- The `if (this.currentScene && transitionDuration > 0) await this.fadeOut(...)`
step of `loadScene`: resulting state, tagged frame snapshots, alpha writes. -/
def afterFadeOut (st1 : MState) (cur : SceneInst) (dur : ℚ) (os : List ℚ) :
    MState × List (SuspKind × MState) × List (SceneInst × ℚ) :=
  if 0 < dur then
    let fo := fadeOutRun cur (alphaOf st1 cur) dur st1 os
    (fo.1, fo.2.2.map fun s => (SuspKind.fadeOutFrame, s), fo.2.1)
  else (st1, [], [])

/-- `loadScene(name, transitionDuration)`, one call, faithful to the source:
guard check, registry lookup (throws if absent), set the flag, optional
fade-out of the current scene, `await unload()` + `removeChild` + clear slot,
then `installNew`; any thrown error is re-thrown by the `catch` and the
`finally` clears the flag. -/
def loadScene (st : MState) (name : String) (dur : ℚ)
    (outSched inSched : List ℚ) : LoadResult :=
  if st.isTransitioning then
    ⟨st, .guardSkip, [], []⟩
  else
    match mapGet st.scenes name with
    | none => ⟨st, .errNotRegistered name, [], []⟩
    | some cls =>
      let st1 : MState := { st with isTransitioning := true }
      match st1.currentScene with
      | some cur =>
        let fo := afterFadeOut st1 cur dur outSched
        let st2 := fo.1
        let t2 := fo.2.1 ++ [(SuspKind.unloadAwait, st2)]
        if cur.cls.unloadFails then
          ⟨{ st2 with isTransitioning := false }, .errUnload cur, t2, fo.2.2⟩
        else
          let st3 : MState := { st2 with
            stageChildren := st2.stageChildren.erase cur,
            currentScene := none }
          installNew st3 cls dur inSched t2 fo.2.2
      | none =>
        installNew st1 cls dur inSched [] []

/-! ## Concrete states for evaluating the model

A registry holding the game's scene classes: two well-behaved ones, one
whose `load()` rejects and one whose `unload()` rejects. -/

/-- A scene class whose lifecycle promises resolve. -/
def menuCls : SceneClass := ⟨"MenuScene", false, false⟩

/-- A second well-behaved scene class. -/
def overCls : SceneClass := ⟨"OverworldScene", false, false⟩

/-- A scene class whose `load()` rejects. -/
def badLoadCls : SceneClass := ⟨"QuizScene", true, false⟩

/-- A scene class whose `unload()` rejects. -/
def badUnloadCls : SceneClass := ⟨"BattleScene", false, true⟩

/-- A registration table holding the four classes. -/
def exReg : List (String × SceneClass) :=
  [("menu", menuCls), ("overworld", overCls),
   ("quiz", badLoadCls), ("battle", badUnloadCls)]

/-- Manager fresh after registration: idle, no active scene. -/
def exIdle : MState := ⟨exReg, none, false, [], [], 0⟩

/-- The same manager observed while a transition is in flight. -/
def exBusy : MState := { exIdle with isTransitioning := true }

/-- An instance of the class whose `unload()` rejects. -/
def battleInst : SceneInst := ⟨badUnloadCls, 0⟩

/-- Manager whose active scene is a `battleInst`, attached to the stage. -/
def exWithBattle : MState :=
  { exIdle with
    currentScene := some battleInst,
    stageChildren := [battleInst],
    nextId := 1 }

/-! ## General lemmas about the fades -/

/-- `jsMin` is `min`. -/
theorem jsMin_eq_min (a b : ℚ) : jsMin a b = min a b := (min_def a b).symm

/-- `fadeOut` only writes `container.alpha`: every other field of the state is
unchanged, both in the final state and in every frame snapshot. -/
theorem fadeOutRun_fields (s : SceneInst) (a0 dur : ℚ) (l : List ℚ) :
    ∀ st : MState,
      ((fadeOutRun s a0 dur st l).1.scenes = st.scenes ∧
        (fadeOutRun s a0 dur st l).1.currentScene = st.currentScene ∧
        (fadeOutRun s a0 dur st l).1.isTransitioning = st.isTransitioning ∧
        (fadeOutRun s a0 dur st l).1.stageChildren = st.stageChildren ∧
        (fadeOutRun s a0 dur st l).1.nextId = st.nextId) ∧
      ∀ s' ∈ (fadeOutRun s a0 dur st l).2.2,
        s'.currentScene = st.currentScene ∧
        s'.isTransitioning = st.isTransitioning ∧
        s'.stageChildren = st.stageChildren ∧
        s'.nextId = st.nextId := by
  induction l with
  | nil => intro st; simp [fadeOutRun]
  | cons e rest ih =>
    intro st
    simp only [fadeOutRun]
    by_cases h : e < dur
    · simp only [if_pos h]
      obtain ⟨h1, h2⟩ := ih (setAlpha st s (a0 * (1 - jsMin (e / dur) 1)))
      refine ⟨by simpa [setAlpha] using h1, ?_⟩
      intro s' hs'
      simp only [List.mem_cons] at hs'
      rcases hs' with rfl | hs'
      · simp [setAlpha]
      · simpa [setAlpha] using h2 s' hs'
    · simp [if_neg h, setAlpha]

/-- `fadeIn` only writes `container.alpha`: every other field of the state is
unchanged, both in the final state and in every frame snapshot. -/
theorem fadeInRun_fields (s : SceneInst) (dur : ℚ) (l : List ℚ) :
    ∀ st : MState,
      ((fadeInRun s dur st l).1.scenes = st.scenes ∧
        (fadeInRun s dur st l).1.currentScene = st.currentScene ∧
        (fadeInRun s dur st l).1.isTransitioning = st.isTransitioning ∧
        (fadeInRun s dur st l).1.stageChildren = st.stageChildren ∧
        (fadeInRun s dur st l).1.nextId = st.nextId) ∧
      ∀ s' ∈ (fadeInRun s dur st l).2.2,
        s'.currentScene = st.currentScene ∧
        s'.isTransitioning = st.isTransitioning := by
  induction l with
  | nil => intro st; simp [fadeInRun]
  | cons e rest ih =>
    intro st
    simp only [fadeInRun]
    by_cases h : e < dur
    · simp only [if_pos h]
      obtain ⟨h1, h2⟩ := ih (setAlpha st s (jsMin (e / dur) 1))
      refine ⟨by simpa [setAlpha] using h1, ?_⟩
      intro s' hs'
      simp only [List.mem_cons] at hs'
      rcases hs' with rfl | hs'
      · simp [setAlpha]
      · simpa [setAlpha] using h2 s' hs'
    · simp [if_neg h, setAlpha]

/-- Assigning an alpha and reading it back. -/
theorem alphaOf_setAlpha_self (st : MState) (s : SceneInst) (a : ℚ) :
    alphaOf (setAlpha st s a) s = a := by
  simp [alphaOf, setAlpha, List.find?]

/-- If the fade-in promise resolves (some sampled elapsed time reaches the
duration), the last frame writes `alpha = 1`. -/
theorem fadeInRun_alpha (s : SceneInst) (dur : ℚ) (hd : 0 < dur) (l : List ℚ) :
    ∀ st : MState, schedValid dur l →
      alphaOf (fadeInRun s dur st l).1 s = 1 := by
  induction l with
  | nil =>
    intro st hv
    obtain ⟨x, hx, _⟩ := hv
    exact absurd hx (List.not_mem_nil x)
  | cons e rest ih =>
    intro st hv
    simp only [fadeInRun]
    by_cases h : e < dur
    · simp only [if_pos h]
      apply ih
      obtain ⟨x, hx, hxd⟩ := hv
      rcases List.mem_cons.mp hx with rfl | hx'
      · exact absurd hxd (not_le.mpr h)
      · exact ⟨x, hx', hxd⟩
    · simp only [if_neg h]
      have h1 : jsMin (e / dur) 1 = 1 := by
        rw [jsMin_eq_min]
        exact min_eq_right ((one_le_div hd).mpr (not_lt.mp h))
      simp [h1, alphaOf_setAlpha_self]

theorem fadeOutRun_scenes (s : SceneInst) (a0 dur : ℚ) (l : List ℚ) (st : MState) :
    (fadeOutRun s a0 dur st l).1.scenes = st.scenes :=
  ((fadeOutRun_fields s a0 dur l st).1).1

theorem fadeOutRun_currentScene (s : SceneInst) (a0 dur : ℚ) (l : List ℚ) (st : MState) :
    (fadeOutRun s a0 dur st l).1.currentScene = st.currentScene :=
  ((fadeOutRun_fields s a0 dur l st).1).2.1

theorem fadeOutRun_isTransitioning (s : SceneInst) (a0 dur : ℚ) (l : List ℚ) (st : MState) :
    (fadeOutRun s a0 dur st l).1.isTransitioning = st.isTransitioning :=
  ((fadeOutRun_fields s a0 dur l st).1).2.2.1

theorem fadeOutRun_stageChildren (s : SceneInst) (a0 dur : ℚ) (l : List ℚ) (st : MState) :
    (fadeOutRun s a0 dur st l).1.stageChildren = st.stageChildren :=
  ((fadeOutRun_fields s a0 dur l st).1).2.2.2.1

theorem fadeOutRun_nextId (s : SceneInst) (a0 dur : ℚ) (l : List ℚ) (st : MState) :
    (fadeOutRun s a0 dur st l).1.nextId = st.nextId :=
  ((fadeOutRun_fields s a0 dur l st).1).2.2.2.2

theorem fadeInRun_scenes (s : SceneInst) (dur : ℚ) (l : List ℚ) (st : MState) :
    (fadeInRun s dur st l).1.scenes = st.scenes :=
  ((fadeInRun_fields s dur l st).1).1

theorem fadeInRun_currentScene (s : SceneInst) (dur : ℚ) (l : List ℚ) (st : MState) :
    (fadeInRun s dur st l).1.currentScene = st.currentScene :=
  ((fadeInRun_fields s dur l st).1).2.1

theorem fadeInRun_isTransitioning (s : SceneInst) (dur : ℚ) (l : List ℚ) (st : MState) :
    (fadeInRun s dur st l).1.isTransitioning = st.isTransitioning :=
  ((fadeInRun_fields s dur l st).1).2.2.1

theorem fadeInRun_stageChildren (s : SceneInst) (dur : ℚ) (l : List ℚ) (st : MState) :
    (fadeInRun s dur st l).1.stageChildren = st.stageChildren :=
  ((fadeInRun_fields s dur l st).1).2.2.2.1

theorem fadeInRun_nextId (s : SceneInst) (dur : ℚ) (l : List ℚ) (st : MState) :
    (fadeInRun s dur st l).1.nextId = st.nextId :=
  ((fadeInRun_fields s dur l st).1).2.2.2.2

theorem fadeInRun_susp (s : SceneInst) (dur : ℚ) (l : List ℚ) (st : MState) :
    ∀ s' ∈ (fadeInRun s dur st l).2.2,
      s'.currentScene = st.currentScene ∧ s'.isTransitioning = st.isTransitioning :=
  (fadeInRun_fields s dur l st).2

/-! ## Lemmas about `installNew` (the tail of `loadScene` after the unload) -/

/-- When the new scene's `load()` rejects, `installNew` re-throws and the
`finally` clears the flag; nothing else of the state changes besides the
fresh-id counter. -/
theorem installNew_loadFails (st : MState) (cls : SceneClass) (dur : ℚ)
    (is_ : List ℚ) (t : List (SuspKind × MState)) (w : List (SceneInst × ℚ))
    (h : cls.loadFails = true) :
    installNew st cls dur is_ t w =
      ⟨{ st with nextId := st.nextId + 1, isTransitioning := false },
        LoadOutcome.errLoad ⟨cls, st.nextId⟩,
        t ++ [(SuspKind.loadAwait, { st with nextId := st.nextId + 1 })], w⟩ := by
  simp [installNew, h]

/-- When the new scene's `load()` resolves, `installNew` succeeds; the new
instance is the active scene, it is attached to the stage, the guard flag is
cleared, and the registration table is untouched. -/
theorem installNew_ok (st : MState) (cls : SceneClass) (dur : ℚ)
    (is_ : List ℚ) (t : List (SuspKind × MState)) (w : List (SceneInst × ℚ))
    (h : cls.loadFails = false) :
    (installNew st cls dur is_ t w).outcome = LoadOutcome.ok ∧
    (installNew st cls dur is_ t w).final.currentScene = some ⟨cls, st.nextId⟩ ∧
    (⟨cls, st.nextId⟩ : SceneInst) ∈ (installNew st cls dur is_ t w).final.stageChildren ∧
    (installNew st cls dur is_ t w).final.isTransitioning = false ∧
    (installNew st cls dur is_ t w).final.scenes = st.scenes ∧
    (installNew st cls dur is_ t w).final.nextId = st.nextId + 1 := by
  by_cases hd : 0 < dur
  · simp [installNew, h, hd, fadeInRun_scenes, fadeInRun_currentScene,
      fadeInRun_stageChildren, fadeInRun_isTransitioning, fadeInRun_nextId, setAlpha]
  · simp [installNew, h, hd]

/-- Final alpha of the newly installed container: 1 after a completed fade-in
when fading, and the untouched entry value (PIXI default for a fresh
container) when the fade is skipped. -/
theorem installNew_alpha (st : MState) (cls : SceneClass) (dur : ℚ)
    (is_ : List ℚ) (t : List (SuspKind × MState)) (w : List (SceneInst × ℚ))
    (h : cls.loadFails = false) :
    (0 < dur → schedValid dur is_ →
      alphaOf (installNew st cls dur is_ t w).final ⟨cls, st.nextId⟩ = 1) ∧
    (¬ 0 < dur →
      alphaOf (installNew st cls dur is_ t w).final ⟨cls, st.nextId⟩ =
        alphaOf st ⟨cls, st.nextId⟩) := by
  constructor
  · intro hd hv
    have := fadeInRun_alpha ⟨cls, st.nextId⟩ dur hd is_
    simp only [installNew, h, if_neg (Bool.not_eq_true _ ▸ h), if_pos hd]
    simp only [Bool.false_eq_true, if_false, if_pos hd]
    have h2 := fadeInRun_alpha ⟨cls, st.nextId⟩ dur hd is_
    simp only [alphaOf] at h2 ⊢
    exact h2 _ hv
  · intro hd
    simp [installNew, h, hd, alphaOf]

/-- Where the suspension snapshots of `installNew` come from and what they
show: either inherited from `t`, or the `load()` await (no scene in the slot
yet at that point), or a fade-in frame, at which the NEW scene is already the
active one. -/
theorem installNew_susp (st : MState) (cls : SceneClass) (dur : ℚ)
    (is_ : List ℚ) (t : List (SuspKind × MState)) (w : List (SceneInst × ℚ)) :
    ∀ p ∈ (installNew st cls dur is_ t w).susp,
      p ∈ t ∨
      (p.1 = SuspKind.loadAwait ∧ p.2.isTransitioning = st.isTransitioning) ∨
      (p.1 = SuspKind.fadeInFrame ∧ p.2.currentScene = some ⟨cls, st.nextId⟩ ∧
        p.2.isTransitioning = st.isTransitioning) := by
  intro p hp
  by_cases h : cls.loadFails = true
  · simp only [installNew, h, if_pos] at hp
    rcases List.mem_append.mp hp with hl | hr
    · exact Or.inl hl
    · simp only [List.mem_singleton] at hr
      subst hr
      exact Or.inr (Or.inl ⟨rfl, rfl⟩)
  · simp only [installNew, if_neg h] at hp
    by_cases hd : 0 < dur
    · simp only [if_pos hd] at hp
      rcases List.mem_append.mp hp with hl | hr
      · rcases List.mem_append.mp hl with hll | hlr
        · exact Or.inl hll
        · simp only [List.mem_singleton] at hlr
          subst hlr
          exact Or.inr (Or.inl ⟨rfl, rfl⟩)
      · rcases List.mem_map.mp hr with ⟨s', hs', rfl⟩
        have hss := fadeInRun_susp ⟨cls, st.nextId⟩ dur is_ _ s' hs'
        refine Or.inr (Or.inr ⟨rfl, ?_, ?_⟩)
        · rw [hss.1]; simp [setAlpha]
        · rw [hss.2]; simp [setAlpha]
    · simp only [if_neg hd] at hp
      rcases List.mem_append.mp hp with hl | hr
      · exact Or.inl hl
      · simp only [List.mem_singleton] at hr
        subst hr
        exact Or.inr (Or.inl ⟨rfl, rfl⟩)

/-- With the fade skipped (`transitionDuration <= 0`) `installNew` assigns no
opacity at all and suspends exactly once, at the `load()` await. -/
theorem installNew_nofade (st : MState) (cls : SceneClass) (dur : ℚ)
    (is_ : List ℚ) (t : List (SuspKind × MState)) (w : List (SceneInst × ℚ))
    (hd : ¬ 0 < dur) :
    (installNew st cls dur is_ t w).writes = w ∧
    (installNew st cls dur is_ t w).susp.map Prod.fst =
      t.map Prod.fst ++ [SuspKind.loadAwait] := by
  by_cases h : cls.loadFails = true <;> simp [installNew, h, hd]

/-- Whatever happens after the flag was raised, `installNew` ends through the
`finally` and the flag is cleared. -/
theorem installNew_flag (st : MState) (cls : SceneClass) (dur : ℚ)
    (is_ : List ℚ) (t : List (SuspKind × MState)) (w : List (SceneInst × ℚ)) :
    (installNew st cls dur is_ t w).final.isTransitioning = false := by
  by_cases h : cls.loadFails = true
  · simp [installNew_loadFails _ _ _ _ _ _ h]
  · by_cases hd : 0 < dur <;> simp [installNew, h, hd]

/-! ## Branch lemmas for `loadScene` -/

/-- Re-entrant call: `loadScene` hits the guard, logs a warning and returns —
the promise resolves, nothing is mutated, nothing is queued. -/
theorem loadScene_busy (st : MState) (name : String) (dur : ℚ)
    (os is_ : List ℚ) (h : st.isTransitioning = true) :
    loadScene st name dur os is_ = ⟨st, LoadOutcome.guardSkip, [], []⟩ := by
  simp [loadScene, h]

/-- Unregistered name: `loadScene` throws before touching any state. -/
theorem loadScene_notReg (st : MState) (name : String) (dur : ℚ)
    (os is_ : List ℚ) (h0 : st.isTransitioning = false)
    (h1 : mapGet st.scenes name = none) :
    loadScene st name dur os is_ = ⟨st, LoadOutcome.errNotRegistered name, [], []⟩ := by
  simp [loadScene, h0, h1]

/-- No scene to retire: `loadScene` reduces to `installNew` on the state with
the guard flag raised. -/
theorem loadScene_noCur (st : MState) (name : String) (dur : ℚ)
    (os is_ : List ℚ) (cls : SceneClass) (h0 : st.isTransitioning = false)
    (h1 : mapGet st.scenes name = some cls) (h2 : st.currentScene = none) :
    loadScene st name dur os is_ =
      installNew { st with isTransitioning := true } cls dur is_ [] [] := by
  simp [loadScene, h0, h1, h2]

/-- The fade-out step only writes alphas: every other field is preserved. -/
theorem afterFadeOut_fields (st1 : MState) (cur : SceneInst) (dur : ℚ) (os : List ℚ) :
    (afterFadeOut st1 cur dur os).1.scenes = st1.scenes ∧
    (afterFadeOut st1 cur dur os).1.currentScene = st1.currentScene ∧
    (afterFadeOut st1 cur dur os).1.isTransitioning = st1.isTransitioning ∧
    (afterFadeOut st1 cur dur os).1.stageChildren = st1.stageChildren ∧
    (afterFadeOut st1 cur dur os).1.nextId = st1.nextId := by
  by_cases hd : 0 < dur
  · simp [afterFadeOut, hd, fadeOutRun_scenes, fadeOutRun_currentScene,
      fadeOutRun_isTransitioning, fadeOutRun_stageChildren, fadeOutRun_nextId]
  · simp [afterFadeOut, hd]

/-- Every fade-out frame snapshot is tagged as such and keeps the guard flag
of the entry state. -/
theorem afterFadeOut_susp (st1 : MState) (cur : SceneInst) (dur : ℚ) (os : List ℚ) :
    ∀ p ∈ (afterFadeOut st1 cur dur os).2.1,
      p.1 = SuspKind.fadeOutFrame ∧ p.2.isTransitioning = st1.isTransitioning := by
  intro p hp
  by_cases hd : 0 < dur
  · simp only [afterFadeOut, if_pos hd] at hp
    rcases List.mem_map.mp hp with ⟨s', hs', rfl⟩
    exact ⟨rfl, ((fadeOutRun_fields cur _ dur os st1).2 s' hs').2.1⟩
  · simp [afterFadeOut, hd] at hp

/-- With `transitionDuration <= 0` the fade-out is skipped entirely. -/
theorem afterFadeOut_nofade (st1 : MState) (cur : SceneInst) (dur : ℚ)
    (os : List ℚ) (hd : ¬ 0 < dur) :
    afterFadeOut st1 cur dur os = (st1, [], []) := by
  simp [afterFadeOut, hd]

/-- Outgoing scene whose `unload()` rejects: the error is re-thrown, the
`finally` clears the flag, and neither the active-scene slot, the stage child
list, nor the registration table is touched (the fade-out only wrote alphas).
Every suspension snapshot of the call has the flag raised and is not a
fade-in frame. -/
theorem loadScene_unloadFail (st : MState) (name : String) (dur : ℚ)
    (os is_ : List ℚ) (cls : SceneClass) (cur : SceneInst)
    (h0 : st.isTransitioning = false)
    (h1 : mapGet st.scenes name = some cls)
    (h2 : st.currentScene = some cur)
    (h3 : cur.cls.unloadFails = true) :
    (loadScene st name dur os is_).outcome = LoadOutcome.errUnload cur ∧
    (loadScene st name dur os is_).final.currentScene = some cur ∧
    (loadScene st name dur os is_).final.isTransitioning = false ∧
    (loadScene st name dur os is_).final.stageChildren = st.stageChildren ∧
    (loadScene st name dur os is_).final.scenes = st.scenes ∧
    (∀ p ∈ (loadScene st name dur os is_).susp,
      p.2.isTransitioning = true ∧ p.1 ≠ SuspKind.fadeInFrame) ∧
    (¬ 0 < dur → (loadScene st name dur os is_).writes = [] ∧
      (loadScene st name dur os is_).susp.map Prod.fst = [SuspKind.unloadAwait]) := by
  obtain ⟨stT, hstT⟩ : ∃ x : MState,
      x = { st with currentScene := some cur, isTransitioning := true } := ⟨_, rfl⟩
  have key : loadScene st name dur os is_ =
      ⟨{ (afterFadeOut stT cur dur os).1 with isTransitioning := false },
        LoadOutcome.errUnload cur,
        (afterFadeOut stT cur dur os).2.1 ++
          [(SuspKind.unloadAwait, (afterFadeOut stT cur dur os).1)],
        (afterFadeOut stT cur dur os).2.2⟩ := by
    subst hstT
    simp [loadScene, h0, h1, h2, h3]
  have hf := afterFadeOut_fields stT cur dur os
  have hs := afterFadeOut_susp stT cur dur os
  have hcs : stT.currentScene = some cur := by rw [hstT]
  have hit : stT.isTransitioning = true := by rw [hstT]
  have hsc : stT.scenes = st.scenes := by rw [hstT]
  have hsg : stT.stageChildren = st.stageChildren := by rw [hstT]
  rw [key]
  refine ⟨rfl, ?_, rfl, ?_, ?_, ?_, ?_⟩
  · show (afterFadeOut stT cur dur os).1.currentScene = some cur
    rw [hf.2.1, hcs]
  · show (afterFadeOut stT cur dur os).1.stageChildren = st.stageChildren
    rw [hf.2.2.2.1, hsg]
  · show (afterFadeOut stT cur dur os).1.scenes = st.scenes
    rw [hf.1, hsc]
  · intro p hp
    rcases List.mem_append.mp hp with hl | hr
    · exact ⟨(hs p hl).2.trans hit, by simp [(hs p hl).1]⟩
    · simp only [List.mem_singleton] at hr
      subst hr
      exact ⟨hf.2.2.1.trans hit, by simp⟩
  · intro hd
    rw [afterFadeOut_nofade _ _ _ _ hd]
    exact ⟨rfl, rfl⟩

/-- Outgoing scene whose `unload()` resolves: after the fade-out, unload,
`removeChild` and slot clearing, `loadScene` continues as `installNew` on a
state with an empty slot, the flag raised, and the id counter, registration
table and (modulo the removed child) stage list of the entry state. -/
theorem loadScene_unloadOk (st : MState) (name : String) (dur : ℚ)
    (os is_ : List ℚ) (cls : SceneClass) (cur : SceneInst)
    (h0 : st.isTransitioning = false)
    (h1 : mapGet st.scenes name = some cls)
    (h2 : st.currentScene = some cur)
    (h3 : cur.cls.unloadFails = false) :
    ∃ (st3 : MState) (t : List (SuspKind × MState)) (w : List (SceneInst × ℚ)),
      loadScene st name dur os is_ = installNew st3 cls dur is_ t w ∧
      st3.currentScene = none ∧ st3.isTransitioning = true ∧
      st3.nextId = st.nextId ∧ st3.scenes = st.scenes ∧
      st3.stageChildren = st.stageChildren.erase cur ∧
      (∀ p ∈ t, p.2.isTransitioning = true ∧ p.1 ≠ SuspKind.fadeInFrame) ∧
      (¬ 0 < dur → w = [] ∧ st3.alphas = st.alphas ∧
        t.map Prod.fst = [SuspKind.unloadAwait]) := by
  obtain ⟨stT, hstT⟩ : ∃ x : MState,
      x = { st with currentScene := some cur, isTransitioning := true } := ⟨_, rfl⟩
  have hf := afterFadeOut_fields stT cur dur os
  have hs := afterFadeOut_susp stT cur dur os
  have hit : stT.isTransitioning = true := by rw [hstT]
  have hsc : stT.scenes = st.scenes := by rw [hstT]
  have hsg : stT.stageChildren = st.stageChildren := by rw [hstT]
  have hni : stT.nextId = st.nextId := by rw [hstT]
  have hal : stT.alphas = st.alphas := by rw [hstT]
  refine ⟨{ (afterFadeOut stT cur dur os).1 with
      stageChildren := (afterFadeOut stT cur dur os).1.stageChildren.erase cur,
      currentScene := none },
    (afterFadeOut stT cur dur os).2.1 ++
      [(SuspKind.unloadAwait, (afterFadeOut stT cur dur os).1)],
    (afterFadeOut stT cur dur os).2.2,
    ?_, rfl, ?_, ?_, ?_, ?_, ?_, ?_⟩
  · subst hstT
    simp [loadScene, h0, h1, h2, h3]
  · show (afterFadeOut stT cur dur os).1.isTransitioning = true
    rw [hf.2.2.1, hit]
  · show (afterFadeOut stT cur dur os).1.nextId = st.nextId
    rw [hf.2.2.2.2, hni]
  · show (afterFadeOut stT cur dur os).1.scenes = st.scenes
    rw [hf.1, hsc]
  · show (afterFadeOut stT cur dur os).1.stageChildren.erase cur
        = st.stageChildren.erase cur
    rw [hf.2.2.2.1, hsg]
  · intro p hp
    rcases List.mem_append.mp hp with hl | hr
    · exact ⟨(hs p hl).2.trans hit, by simp [(hs p hl).1]⟩
    · simp only [List.mem_singleton] at hr
      subst hr
      exact ⟨hf.2.2.1.trans hit, by simp⟩
  · intro hd
    rw [afterFadeOut_nofade _ _ _ _ hd]
    exact ⟨rfl, hal, rfl⟩

/-- `Map.set` then `Map.get` of the same key yields the value just set. -/
theorem mapGet_cons_self (m : List (String × SceneClass)) (n : String)
    (c : SceneClass) : mapGet ((n, c) :: m) n = some c := by
  simp [mapGet, List.find?]

/-- A container with a fresh instance id has no recorded alpha write, so it
reads back PIXI's default `alpha = 1`. -/
theorem alphaOf_fresh (st : MState) (c : SceneClass)
    (h : (st.alphas.all fun p => decide (p.1.instId < st.nextId)) = true) :
    alphaOf st ⟨c, st.nextId⟩ = 1 := by
  have hnone : st.alphas.find? (fun p => decide (p.1 = ⟨c, st.nextId⟩)) = none := by
    rw [List.find?_eq_none]
    intro p hp
    have hlt := List.all_eq_true.mp h p hp
    simp only [decide_eq_true_eq] at hlt ⊢
    intro hcontra
    rw [hcontra] at hlt
    exact lt_irrefl _ hlt
  simp [alphaOf, hnone]

/-- Successful `loadScene`: the registry lookup succeeds, the outgoing
scene's `unload()` (if any) resolves and the incoming scene's `load()`
resolves.  Then the call resolves with the freshly constructed instance of
the looked-up class as the active scene, that instance attached to the
stage, the guard flag cleared and the registration table untouched. -/
theorem loadScene_success (st : MState) (name : String) (dur : ℚ)
    (os is_ : List ℚ) (cls : SceneClass)
    (h0 : st.isTransitioning = false)
    (h1 : mapGet st.scenes name = some cls)
    (h2 : cls.loadFails = false)
    (h3 : (st.currentScene.all fun cur => !cur.cls.unloadFails) = true) :
    (loadScene st name dur os is_).outcome = LoadOutcome.ok ∧
    getCurrentScene (loadScene st name dur os is_).final = some ⟨cls, st.nextId⟩ ∧
    (⟨cls, st.nextId⟩ : SceneInst) ∈ (loadScene st name dur os is_).final.stageChildren ∧
    (loadScene st name dur os is_).final.isTransitioning = false ∧
    (loadScene st name dur os is_).final.scenes = st.scenes ∧
    (loadScene st name dur os is_).final.nextId = st.nextId + 1 := by
  cases hc : st.currentScene with
  | none =>
    rw [loadScene_noCur st name dur os is_ cls h0 h1 hc]
    have hi := installNew_ok { st with isTransitioning := true } cls dur is_ [] [] h2
    exact hi
  | some cur =>
    have hu : cur.cls.unloadFails = false := by simpa [hc] using h3
    obtain ⟨st3, t, w, heq, hcs3, hit3, hni3, hsc3, hsg3, ht, hnf⟩ :=
      loadScene_unloadOk st name dur os is_ cls cur h0 h1 hc hu
    rw [heq]
    have hi := installNew_ok st3 cls dur is_ t w h2
    rw [hni3] at hi
    exact ⟨hi.1, hi.2.1, hi.2.2.1, hi.2.2.2.1, hi.2.2.2.2.1.trans hsc3,
      hi.2.2.2.2.2⟩

/-- Successful `loadScene` leaves the new container at `alpha = 1`: by the
last fade-in frame when fading, and by the fresh container's default when
`transitionDuration <= 0` (assuming the entry state records alphas only for
previously constructed containers). -/
theorem loadScene_success_alpha (st : MState) (name : String) (dur : ℚ)
    (os is_ : List ℚ) (cls : SceneClass)
    (h0 : st.isTransitioning = false)
    (h1 : mapGet st.scenes name = some cls)
    (h2 : cls.loadFails = false)
    (h3 : (st.currentScene.all fun cur => !cur.cls.unloadFails) = true)
    (h4 : (st.alphas.all fun p => decide (p.1.instId < st.nextId)) = true)
    (h5 : 0 < dur → schedValid dur is_) :
    alphaOf (loadScene st name dur os is_).final ⟨cls, st.nextId⟩ = 1 := by
  cases hc : st.currentScene with
  | none =>
    rw [loadScene_noCur st name dur os is_ cls h0 h1 hc]
    have ha := installNew_alpha { st with isTransitioning := true } cls dur is_ [] [] h2
    by_cases hd : 0 < dur
    · exact ha.1 hd (h5 hd)
    · exact (ha.2 hd).trans (alphaOf_fresh st cls h4)
  | some cur =>
    have hu : cur.cls.unloadFails = false := by simpa [hc] using h3
    obtain ⟨st3, t, w, heq, hcs3, hit3, hni3, hsc3, hsg3, ht, hnf⟩ :=
      loadScene_unloadOk st name dur os is_ cls cur h0 h1 hc hu
    rw [heq]
    have ha := installNew_alpha st3 cls dur is_ t w h2
    rw [hni3] at ha
    by_cases hd : 0 < dur
    · exact ha.1 hd (h5 hd)
    · refine (ha.2 hd).trans ?_
      have halphas : st3.alphas = st.alphas := (hnf hd).2.1
      calc alphaOf st3 ⟨cls, st.nextId⟩
          = alphaOf st ⟨cls, st.nextId⟩ := by simp [alphaOf, halphas]
        _ = 1 := alphaOf_fresh st cls h4

/-- A call on an idle manager with an empty slot and a registered class whose
`load()` rejects throws `errLoad` for the fresh instance (used to show the
guard does not reject a retry after a failed load). -/
theorem loadScene_retry_errLoad (F : MState) (name : String) (cls : SceneClass)
    (hF0 : F.isTransitioning = false) (hF1 : mapGet F.scenes name = some cls)
    (hFc : F.currentScene = none) (h2 : cls.loadFails = true) :
    (loadScene F name 0 [] []).outcome = LoadOutcome.errLoad ⟨cls, F.nextId⟩ := by
  rw [loadScene_noCur F name 0 [] [] cls hF0 hF1 hFc,
    installNew_loadFails _ _ _ _ _ _ h2]

/-! ## The claims -/

/-- C1, counterexample to the claim as stated: with "menu" registered and a
transition in flight, `loadScene("menu")` does NOT fail with an error visible
to the caller — the promise resolves (the guard path is
`console.warn(...); return;`), so no `TransitionInProgressError` reaches the
caller. -/
theorem C1_counterexample :
    mapGet exBusy.scenes "menu" = some menuCls ∧
    exBusy.isTransitioning = true ∧
    (loadScene exBusy "menu" 300 [] []).outcome = LoadOutcome.guardSkip ∧
    isError (loadScene exBusy "menu" 300 [] []).outcome = false := by
  refine ⟨rfl, rfl, rfl, rfl⟩

/-- C1 (amended): if `loadScene` is called while a transition is in flight,
the call returns without any error visible to the caller (it only logs a
warning); it has no effect on the registration table, the active-scene slot
or the in-flight transition (the state is returned unchanged), and it is not
queued (no suspension points, no opacity writes, nothing executed later). -/
theorem C1_reentrant_call_silently_skipped (st : MState) (name : String)
    (dur : ℚ) (os is_ : List ℚ) (h : st.isTransitioning = true) :
    loadScene st name dur os is_ = ⟨st, LoadOutcome.guardSkip, [], []⟩ ∧
    isError LoadOutcome.guardSkip = false :=
  ⟨loadScene_busy st name dur os is_ h, rfl⟩

/-- C1, witness: the amended theorem evaluated on a concrete busy manager. -/
theorem C1_reentrant_call_silently_skipped_witness :
    loadScene exBusy "menu" 300 [] [] = ⟨exBusy, LoadOutcome.guardSkip, [], []⟩ ∧
    isError LoadOutcome.guardSkip = false :=
  C1_reentrant_call_silently_skipped exBusy "menu" 300 [] [] rfl

/-- C3, counterexample to the claim as stated: when the outgoing scene's
`unload()` rejects, `getCurrentScene()` afterwards does NOT return empty —
the slot still holds the old scene (`this.currentScene = null` on line 64 is
only reached after a successful `await unload()`). -/
theorem C3_counterexample :
    (loadScene exWithBattle "menu" 0 [] []).outcome = LoadOutcome.errUnload battleInst ∧
    getCurrentScene (loadScene exWithBattle "menu" 0 [] []).final = some battleInst ∧
    getCurrentScene (loadScene exWithBattle "menu" 0 [] []).final ≠ none := by
  refine ⟨rfl, rfl, by decide⟩

/-- C3 (amended): if the outgoing scene's `unload()` rejects during
`loadScene`, the error propagates to the caller and the controller is left
out of the transitioning state (flag false), but the active-scene slot still
holds the OLD scene: `getCurrentScene()` afterwards returns the old scene,
not empty. -/
theorem C3_unload_reject_keeps_old_scene (st : MState) (name : String)
    (dur : ℚ) (os is_ : List ℚ) (cls : SceneClass) (cur : SceneInst)
    (h0 : st.isTransitioning = false)
    (h1 : mapGet st.scenes name = some cls)
    (h2 : st.currentScene = some cur)
    (h3 : cur.cls.unloadFails = true)
    (hv : 0 < dur → schedValid dur os) :
    (loadScene st name dur os is_).outcome = LoadOutcome.errUnload cur ∧
    isError (LoadOutcome.errUnload cur) = true ∧
    getCurrentScene (loadScene st name dur os is_).final = some cur ∧
    (loadScene st name dur os is_).final.isTransitioning = false :=
  let h := loadScene_unloadFail st name dur os is_ cls cur h0 h1 h2 h3
  ⟨h.1, rfl, h.2.1, h.2.2.1⟩

/-- C3, witness: the amended theorem evaluated on a concrete manager whose
active scene rejects `unload()`. -/
theorem C3_unload_reject_keeps_old_scene_witness :
    (loadScene exWithBattle "menu" 0 [] []).outcome = LoadOutcome.errUnload battleInst ∧
    isError (LoadOutcome.errUnload battleInst) = true ∧
    getCurrentScene (loadScene exWithBattle "menu" 0 [] []).final = some battleInst ∧
    (loadScene exWithBattle "menu" 0 [] []).final.isTransitioning = false :=
  C3_unload_reject_keeps_old_scene exWithBattle "menu" 0 [] [] menuCls battleInst
    rfl rfl rfl rfl (fun h => absurd h (lt_irrefl 0))

/-- C6: calling `loadScene` on an unregistered name while idle throws
`[SceneManager] Scene "name" not registered` to the caller before the flag is
set: the whole state is returned unchanged (active-scene slot untouched,
flag still false) and there is no suspension point, so the transitioning
state is never observable. -/
theorem C6_unknown_scene_rejected (st : MState) (name : String) (dur : ℚ)
    (os is_ : List ℚ)
    (h0 : st.isTransitioning = false)
    (h1 : mapGet st.scenes name = none) :
    loadScene st name dur os is_ = ⟨st, LoadOutcome.errNotRegistered name, [], []⟩ ∧
    isError (LoadOutcome.errNotRegistered name) = true :=
  ⟨loadScene_notReg st name dur os is_ h0 h1, rfl⟩

/-- C6, witness: the theorem evaluated at a name absent from the registry. -/
theorem C6_unknown_scene_rejected_witness :
    loadScene exIdle "shop" 300 [] [] =
      ⟨exIdle, LoadOutcome.errNotRegistered "shop", [], []⟩ ∧
    isError (LoadOutcome.errNotRegistered "shop") = true :=
  C6_unknown_scene_rejected exIdle "shop" 300 [] [] rfl rfl

/-- C7: if the outgoing scene's `unload()` rejects, `removeChild` (line 63)
is never reached, so the stage child list — hence the old scene's container's
attachment to the host root — is exactly as before the call; the error
propagates to the caller and the `finally` leaves the flag false. -/
theorem C7_unload_reject_keeps_container_attached (st : MState) (name : String)
    (dur : ℚ) (os is_ : List ℚ) (cls : SceneClass) (cur : SceneInst)
    (h0 : st.isTransitioning = false)
    (h1 : mapGet st.scenes name = some cls)
    (h2 : st.currentScene = some cur)
    (h3 : cur.cls.unloadFails = true)
    (hv : 0 < dur → schedValid dur os) :
    (loadScene st name dur os is_).final.stageChildren = st.stageChildren ∧
    (loadScene st name dur os is_).outcome = LoadOutcome.errUnload cur ∧
    isError (LoadOutcome.errUnload cur) = true ∧
    (loadScene st name dur os is_).final.isTransitioning = false :=
  let h := loadScene_unloadFail st name dur os is_ cls cur h0 h1 h2 h3
  ⟨h.2.2.2.1, h.1, rfl, h.2.2.1⟩

/-- C7, witness: the theorem evaluated with a 300ms fade and a resolving
fade-out schedule; the battle container stays attached. -/
theorem C7_unload_reject_keeps_container_attached_witness :
    (loadScene exWithBattle "overworld" 300 [100, 300] []).final.stageChildren
      = exWithBattle.stageChildren ∧
    (loadScene exWithBattle "overworld" 300 [100, 300] []).outcome
      = LoadOutcome.errUnload battleInst ∧
    isError (LoadOutcome.errUnload battleInst) = true ∧
    (loadScene exWithBattle "overworld" 300 [100, 300] []).final.isTransitioning
      = false :=
  C7_unload_reject_keeps_container_attached exWithBattle "overworld" 300
    [100, 300] [] overCls battleInst rfl rfl rfl rfl (by decide)

/-- C2, counterexample to the claim as stated: in a 300ms transition to
"overworld" with fade-in frames sampled at 150ms and 300ms, the suspension
point after the 150ms frame is still mid-fade (the new container's alpha is
1/2, a further frame follows), yet `getCurrentScene()` already returns the
newly constructed overworld instance — `this.currentScene = newScene`
(line 73) runs BEFORE the fade-in (lines 76-79), not after it. -/
theorem C2_counterexample :
    ((loadScene exIdle "overworld" 300 [] [150, 300]).susp.map
        fun p => (p.1, getCurrentScene p.2)) =
      [(SuspKind.loadAwait, none),
       (SuspKind.fadeInFrame, some ⟨overCls, 0⟩),
       (SuspKind.fadeInFrame, some ⟨overCls, 0⟩)] ∧
    ((loadScene exIdle "overworld" 300 [] [150, 300]).susp.map
        fun p => alphaOf p.2 ⟨overCls, 0⟩) = [1, 1/2, 1] := by
  constructor
  · decide
  · norm_num +decide [loadScene, installNew, fadeInRun, afterFadeOut, mapGet,
      exIdle, exReg, menuCls, overCls, badLoadCls, badUnloadCls,
      getCurrentScene, alphaOf, setAlpha, jsMin, List.find?]

/-- C2 (amended): the new scene is set as the active scene right after its
`load()` resolves and its container is attached, BEFORE the fade-in: at every
suspension point during the fade-in, `getCurrentScene()` already returns the
newly constructed instance (while the transition flag is still raised); the
`loadScene` promise itself still resolves only after the fade-in completes. -/
theorem C2_new_scene_active_during_fadeIn (st : MState) (name : String)
    (dur : ℚ) (os is_ : List ℚ) (cls : SceneClass)
    (h1 : mapGet st.scenes name = some cls) :
    ((loadScene st name dur os is_).susp.all fun p =>
      p.1 != SuspKind.fadeInFrame ||
      (decide (getCurrentScene p.2 = some ⟨cls, st.nextId⟩) &&
        p.2.isTransitioning)) = true := by
  rw [List.all_eq_true]
  intro p hp
  cases hb : st.isTransitioning with
  | true =>
    rw [loadScene_busy st name dur os is_ hb] at hp
    simp at hp
  | false =>
    cases hc : st.currentScene with
    | none =>
      rw [loadScene_noCur st name dur os is_ cls hb h1 hc] at hp
      rcases installNew_susp _ cls dur is_ [] [] p hp with h | h | h
      · simp at h
      · simp [h.1]
      · simp [h.1, h.2.1, h.2.2, getCurrentScene]
    | some cur =>
      by_cases hu : cur.cls.unloadFails = true
      · have h := (loadScene_unloadFail st name dur os is_ cls cur hb h1 hc hu).2.2.2.2.2.1
        simp [(h p hp).2]
      · rw [Bool.not_eq_true] at hu
        obtain ⟨st3, t, w, heq, hcs3, hit3, hni3, hsc3, hsg3, ht, hnf⟩ :=
          loadScene_unloadOk st name dur os is_ cls cur hb h1 hc hu
        rw [heq] at hp
        rcases installNew_susp st3 cls dur is_ t w p hp with h | h | h
        · simp [(ht p h).2]
        · simp [h.1]
        · rw [hni3] at h
          simp [h.1, h.2.1, h.2.2, hit3, getCurrentScene]

/-- C2, witness: the amended theorem evaluated on the concrete 300ms
transition used for the counterexample. -/
theorem C2_new_scene_active_during_fadeIn_witness :
    ((loadScene exIdle "overworld" 300 [] [150, 300]).susp.all fun p =>
      p.1 != SuspKind.fadeInFrame ||
      (decide (getCurrentScene p.2 = some ⟨overCls, 0⟩) &&
        p.2.isTransitioning)) = true :=
  C2_new_scene_active_during_fadeIn exIdle "overworld" 300 [] [150, 300]
    overCls rfl

/-- C4: the transition flag is true exactly while a `loadScene` transition is
in flight: every suspension point of the call (fade-out frames, the unload
and load awaits, fade-in frames) shows the flag raised, and every exit —
success, `load()` failure, `unload()` failure, guard skip or unknown-name
throw — returns the flag to its entry value (false for a call that actually
ran, since only an idle manager passes the guard), so it is never left stuck
and a second transition can never run while one is in flight. -/
theorem C4_flag_true_exactly_in_flight (st : MState) (name : String)
    (dur : ℚ) (os is_ : List ℚ) :
    (loadScene st name dur os is_).final.isTransitioning = st.isTransitioning ∧
    ((loadScene st name dur os is_).susp.all fun p => p.2.isTransitioning) = true := by
  cases hb : st.isTransitioning with
  | true => rw [loadScene_busy st name dur os is_ hb]; exact ⟨hb, rfl⟩
  | false =>
    cases hm : mapGet st.scenes name with
    | none => rw [loadScene_notReg st name dur os is_ hb hm]; exact ⟨hb, rfl⟩
    | some cls =>
      cases hc : st.currentScene with
      | none =>
        rw [loadScene_noCur st name dur os is_ cls hb hm hc]
        refine ⟨by rw [installNew_flag], ?_⟩
        rw [List.all_eq_true]
        intro p hp
        rcases installNew_susp _ cls dur is_ [] [] p hp with h | h | h
        · simp at h
        · exact h.2
        · exact h.2.2
      | some cur =>
        by_cases hu : cur.cls.unloadFails = true
        · have h := loadScene_unloadFail st name dur os is_ cls cur hb hm hc hu
          refine ⟨by rw [h.2.2.1], ?_⟩
          rw [List.all_eq_true]
          exact fun p hp => (h.2.2.2.2.2.1 p hp).1
        · rw [Bool.not_eq_true] at hu
          obtain ⟨st3, t, w, heq, hcs3, hit3, hni3, hsc3, hsg3, ht, hnf⟩ :=
            loadScene_unloadOk st name dur os is_ cls cur hb hm hc hu
          rw [heq]
          refine ⟨by rw [installNew_flag], ?_⟩
          rw [List.all_eq_true]
          intro p hp
          rcases installNew_susp st3 cls dur is_ t w p hp with h | h | h
          · exact (ht p h).1
          · exact h.2.trans hit3
          · exact h.2.2.trans hit3

/-- C5: if the new scene's `load()` rejects, the error propagates
(`errLoad`), `getCurrentScene()` afterwards is empty (the slot was already
cleared after the old scene's unload, or was empty to begin with), the
`finally` leaves the flag false, and a subsequent `loadScene` call for the
same name is NOT rejected by the guard: it runs again (constructing the next
fresh instance and failing at `load()` again, not with a guard skip). -/
theorem C5_load_reject_clean_state (st : MState) (name : String) (dur : ℚ)
    (os is_ : List ℚ) (cls : SceneClass)
    (h0 : st.isTransitioning = false)
    (h1 : mapGet st.scenes name = some cls)
    (h2 : cls.loadFails = true)
    (h3 : (st.currentScene.all fun cur => !cur.cls.unloadFails) = true)
    (hv : 0 < dur → st.currentScene.isSome = true → schedValid dur os) :
    (loadScene st name dur os is_).outcome = LoadOutcome.errLoad ⟨cls, st.nextId⟩ ∧
    isError (LoadOutcome.errLoad ⟨cls, st.nextId⟩) = true ∧
    getCurrentScene (loadScene st name dur os is_).final = none ∧
    (loadScene st name dur os is_).final.isTransitioning = false ∧
    (loadScene (loadScene st name dur os is_).final name 0 [] []).outcome
      = LoadOutcome.errLoad ⟨cls, st.nextId + 1⟩ := by
  cases hc : st.currentScene with
  | none =>
    rw [loadScene_noCur st name dur os is_ cls h0 h1 hc,
      installNew_loadFails _ _ _ _ _ _ h2]
    exact ⟨rfl, rfl, hc, rfl, loadScene_retry_errLoad _ name cls rfl h1 hc h2⟩
  | some cur =>
    have hu : cur.cls.unloadFails = false := by simpa [hc] using h3
    obtain ⟨st3, t, w, heq, hcs3, hit3, hni3, hsc3, hsg3, ht, hnf⟩ :=
      loadScene_unloadOk st name dur os is_ cls cur h0 h1 hc hu
    rw [heq, installNew_loadFails _ _ _ _ _ _ h2]
    have hF1 : mapGet st3.scenes name = some cls := by rw [hsc3]; exact h1
    refine ⟨by rw [hni3], rfl, hcs3, rfl, ?_⟩
    refine (loadScene_retry_errLoad
      { st3 with nextId := st3.nextId + 1, isTransitioning := false }
      name cls rfl hF1 hcs3 h2).trans ?_
    show LoadOutcome.errLoad ⟨cls, st3.nextId + 1⟩ = LoadOutcome.errLoad ⟨cls, st.nextId + 1⟩
    rw [hni3]

/-- C5, witness: the theorem on a concrete idle manager and the registered
"quiz" class whose `load()` rejects. -/
theorem C5_load_reject_clean_state_witness :
    (loadScene exIdle "quiz" 300 [] []).outcome = LoadOutcome.errLoad ⟨badLoadCls, 0⟩ ∧
    isError (LoadOutcome.errLoad ⟨badLoadCls, 0⟩) = true ∧
    getCurrentScene (loadScene exIdle "quiz" 300 [] []).final = none ∧
    (loadScene exIdle "quiz" 300 [] []).final.isTransitioning = false ∧
    (loadScene (loadScene exIdle "quiz" 300 [] []).final "quiz" 0 [] []).outcome
      = LoadOutcome.errLoad ⟨badLoadCls, 1⟩ :=
  C5_load_reject_clean_state exIdle "quiz" 300 [] [] badLoadCls
    rfl rfl rfl rfl (by decide)

/-- C8: a successful `loadScene(name)` leaves the controller with the scene
constructed from `name`'s registered class as the active scene —
`getCurrentScene()` returns that fresh instance — its container attached to
the stage at `alpha = 1` (by the completed fade-in, or by the fresh
container's default when the fade is skipped), and the transition flag
false. -/
theorem C8_success_postconditions (st : MState) (name : String) (dur : ℚ)
    (os is_ : List ℚ) (cls : SceneClass)
    (h0 : st.isTransitioning = false)
    (h1 : mapGet st.scenes name = some cls)
    (h2 : cls.loadFails = false)
    (h3 : (st.currentScene.all fun cur => !cur.cls.unloadFails) = true)
    (h4 : (st.alphas.all fun p => decide (p.1.instId < st.nextId)) = true)
    (h5 : 0 < dur → schedValid dur is_)
    (h6 : 0 < dur → st.currentScene.isSome = true → schedValid dur os) :
    (loadScene st name dur os is_).outcome = LoadOutcome.ok ∧
    getCurrentScene (loadScene st name dur os is_).final = some ⟨cls, st.nextId⟩ ∧
    (⟨cls, st.nextId⟩ : SceneInst) ∈ (loadScene st name dur os is_).final.stageChildren ∧
    alphaOf (loadScene st name dur os is_).final ⟨cls, st.nextId⟩ = 1 ∧
    (loadScene st name dur os is_).final.isTransitioning = false :=
  let h := loadScene_success st name dur os is_ cls h0 h1 h2 h3
  ⟨h.1, h.2.1, h.2.2.1,
    loadScene_success_alpha st name dur os is_ cls h0 h1 h2 h3 h4 h5,
    h.2.2.2.1⟩

/-- C8, witness: the theorem on a concrete 300ms transition whose fade-in
schedule resolves. -/
theorem C8_success_postconditions_witness :
    (loadScene exIdle "overworld" 300 [] [150, 300]).outcome = LoadOutcome.ok ∧
    getCurrentScene (loadScene exIdle "overworld" 300 [] [150, 300]).final
      = some ⟨overCls, 0⟩ ∧
    (⟨overCls, 0⟩ : SceneInst) ∈
      (loadScene exIdle "overworld" 300 [] [150, 300]).final.stageChildren ∧
    alphaOf (loadScene exIdle "overworld" 300 [] [150, 300]).final ⟨overCls, 0⟩ = 1 ∧
    (loadScene exIdle "overworld" 300 [] [150, 300]).final.isTransitioning = false :=
  C8_success_postconditions exIdle "overworld" 300 [] [150, 300] overCls
    rfl rfl rfl rfl rfl (by decide) (by decide)

/-- C9: with `transitionDuration = 0` both fade steps are skipped entirely —
the call performs NO opacity assignment at all (so no intermediate opacity is
ever observable and a fresh container keeps its default `alpha = 1`) — while
the unload of the old scene and the load of the new scene are still
sequenced: the only suspension points, in order, are the `unload()` await
(when a scene was active) followed by the `load()` await (when reached). -/
theorem C9_zero_duration_skips_fade (st : MState) (name : String)
    (os is_ : List ℚ) :
    (loadScene st name 0 os is_).writes = [] ∧
    ((loadScene st name 0 os is_).susp.map Prod.fst = [] ∨
     (loadScene st name 0 os is_).susp.map Prod.fst = [SuspKind.unloadAwait] ∨
     (loadScene st name 0 os is_).susp.map Prod.fst = [SuspKind.loadAwait] ∨
     (loadScene st name 0 os is_).susp.map Prod.fst =
       [SuspKind.unloadAwait, SuspKind.loadAwait]) := by
  have hd : ¬ (0:ℚ) < 0 := lt_irrefl 0
  cases hb : st.isTransitioning with
  | true => rw [loadScene_busy st name 0 os is_ hb]; exact ⟨rfl, Or.inl rfl⟩
  | false =>
    cases hm : mapGet st.scenes name with
    | none => rw [loadScene_notReg st name 0 os is_ hb hm]; exact ⟨rfl, Or.inl rfl⟩
    | some cls =>
      cases hc : st.currentScene with
      | none =>
        rw [loadScene_noCur st name 0 os is_ cls hb hm hc]
        have h := installNew_nofade { st with isTransitioning := true } cls 0 is_ [] [] hd
        exact ⟨h.1, Or.inr (Or.inr (Or.inl (by simpa using h.2)))⟩
      | some cur =>
        by_cases hu : cur.cls.unloadFails = true
        · have h := loadScene_unloadFail st name 0 os is_ cls cur hb hm hc hu
          have h2 := h.2.2.2.2.2.2 hd
          exact ⟨h2.1, Or.inr (Or.inl h2.2)⟩
        · rw [Bool.not_eq_true] at hu
          obtain ⟨st3, t, w, heq, hcs3, hit3, hni3, hsc3, hsg3, ht, hnf⟩ :=
            loadScene_unloadOk st name 0 os is_ cls cur hb hm hc hu
          rw [heq]
          have h := installNew_nofade st3 cls 0 is_ t w hd
          obtain ⟨hw, hal, hts⟩ := hnf hd
          refine ⟨h.1.trans hw, Or.inr (Or.inr (Or.inr ?_))⟩
          rw [h.2, hts]
          rfl

/-- C10: `registerScene` with an already registered name raises no error and
silently overwrites: the lookup for that name now yields the class just
registered, the active-scene slot and the transition flag are untouched, and
a subsequent `loadScene` for that name constructs its scene from the most
recently registered class. -/
theorem C10_register_overwrites (st : MState) (name : String) (c c0 : SceneClass)
    (hdup : mapGet st.scenes name = some c0) :
    (registerScene st name c).currentScene = st.currentScene ∧
    (registerScene st name c).isTransitioning = st.isTransitioning ∧
    mapGet (registerScene st name c).scenes name = some c ∧
    (st.isTransitioning = false → c.loadFails = false →
      (st.currentScene.all fun cur => !cur.cls.unloadFails) = true →
      (loadScene (registerScene st name c) name 0 [] []).outcome = LoadOutcome.ok ∧
      getCurrentScene (loadScene (registerScene st name c) name 0 [] []).final
        = some ⟨c, st.nextId⟩) := by
  refine ⟨rfl, rfl, mapGet_cons_self st.scenes name c, ?_⟩
  intro hf hl hu
  have h := loadScene_success (registerScene st name c) name 0 [] [] c hf
    (mapGet_cons_self st.scenes name c) hl hu
  exact ⟨h.1, h.2.1⟩

/-- C10, witness: re-registering "menu" (already mapped to the menu class)
with the overworld class; the next `loadScene("menu")` constructs an
overworld-class instance. -/
theorem C10_register_overwrites_witness :
    (registerScene exIdle "menu" overCls).currentScene = exIdle.currentScene ∧
    (registerScene exIdle "menu" overCls).isTransitioning = exIdle.isTransitioning ∧
    mapGet (registerScene exIdle "menu" overCls).scenes "menu" = some overCls ∧
    ((loadScene (registerScene exIdle "menu" overCls) "menu" 0 [] []).outcome
        = LoadOutcome.ok ∧
      getCurrentScene
          (loadScene (registerScene exIdle "menu" overCls) "menu" 0 [] []).final
        = some ⟨overCls, 0⟩) :=
  let h := C10_register_overwrites exIdle "menu" overCls menuCls rfl
  ⟨h.1, h.2.1, h.2.2.1, h.2.2.2 rfl rfl rfl⟩

end SceneMgr
